import Mathlib

/-!
Verification of the SMS-webhook / MPESA extraction pipeline.

This file is a shallow embedding of the core of the repository:
  - `sms_webhook/mpesa_parser.py`  (`MPESAParser`)
  - `sms_webhook/sms_fetcher.py`   (`SMSFetcher`)
  - `sms_webhook/views.py`         (`WebhookView.post`)
  - `sms_webhook/models.py`        (`MPESATransaction.is_valid`, store shape)

Python strings are `String`/`List Char`; Python `re` patterns are embedded
as terms of a small backtracking regex AST (`RE`) whose matcher follows
CPython `re` semantics (leftmost search position wins; within a position,
ordered alternation, greedy/lazy quantifiers by backtracking).  `Decimal`
values are exact rationals; `float` values are rationals obtained by
round-to-nearest-even binary64 rounding (`toFloat64`); confidence-score
arithmetic (`0.5 + 0.2 + ...`) is modelled in exact rational arithmetic.
Fallible Python code is modelled with `Option`/`Except`.
-/

set_option maxRecDepth 10000

/-! ## Generic string helpers (Python `str` operations) -/

/-- Does the first list lead (i.e. occur as an initial segment of) the second?
Model of Python `str.startswith` on the underlying characters. -/
def listLeads : List Char → List Char → Bool
  | [], _ => true
  | _ :: _, [] => false
  | a :: n, b :: h => a = b && listLeads n h

/-- Does the first list occur contiguously anywhere inside the second?
Model of Python's substring test `needle in hay`. -/
def listWithin (n : List Char) : List Char → Bool
  | [] => listLeads n []
  | b :: h => listLeads n (b :: h) || listWithin n h

/-- Python `str.lower()` (ASCII case mapping suffices for this repository). -/
def pyLower (s : String) : String := String.mk (s.data.map Char.toLower)

/-- Python `str.upper()`. -/
def pyUpper (s : String) : String := String.mk (s.data.map Char.toUpper)

/-- Python substring containment `needle in hay`. -/
def pyIn (needle hay : String) : Bool := listWithin needle.data hay.data

/-- Python `str.startswith`. -/
def pyStartsWith (s pre : String) : Bool := listLeads pre.data s.data

/-- Python `str.strip()` (whitespace trim on both ends). -/
def pyWs (c : Char) : Bool :=
  c = ' ' || c = '\t' || c = '\n' || c = '\r' || c = '\x0b' || c = '\x0c'

/-- Python `str.strip()`. -/
def pyStrip (s : String) : String :=
  String.mk (((s.data.dropWhile pyWs).reverse.dropWhile pyWs).reverse)

/-- Python `str.replace(old, new)` for single-character `old` with empty
`new` (the only form the sources use: `.replace(",", "")` and
`.replace(" ", "")`). -/
def pyRemoveChar (c : Char) (s : String) : String :=
  String.mk (s.data.filter (fun x => x ≠ c))

/-- ASCII digit test (model of `str.isdigit` per character; the gateway
payloads are ASCII). -/
def asciiDigit (c : Char) : Bool := '0' ≤ c && c ≤ '9'

/-- Python `str.isdigit()`: non-empty and all digits. -/
def pyIsDigit (s : String) : Bool := s.data ≠ [] && s.data.all asciiDigit

/-- First `n` characters, Python `s[:n]`. -/
def pyTake (n : Nat) (s : String) : String := String.mk (s.data.take n)

/-- Characters from index `n` on, Python `s[n:]`. -/
def pyDrop (n : Nat) (s : String) : String := String.mk (s.data.drop n)

/-- Split a character list at every occurrence of separator `c` (Python
`str.split(c)` for a one-character separator; empty pieces preserved). -/
def splitOnChar (c : Char) : List Char → List (List Char)
  | [] => [[]]
  | x :: t =>
    let rest := splitOnChar c t
    if x = c then [] :: rest
    else match rest with
      | [] => [[x]]
      | p :: ps => (x :: p) :: ps

/-- Digits of a non-empty all-digit character list as a natural number. -/
def digitsToNat (l : List Char) : Nat :=
  l.foldl (fun acc c => acc * 10 + (c.toNat - 48)) 0

/-- Parse a non-empty all-ASCII-digit string as a natural number. -/
def natOfDigits? (l : List Char) : Option Nat :=
  if l ≠ [] && l.all asciiDigit then some (digitsToNat l) else none

/-- Model of Python `int(str)`: strip surrounding whitespace, optional sign,
then a non-empty digit string.  (Underscore digit grouping, accepted by
CPython since 3.6, does not occur in gateway timestamp strings and is not
modelled.) -/
def pyIntParse (s : String) : Option Int :=
  let t := (pyStrip s).data
  match t with
  | '+' :: rest => (natOfDigits? rest).map (Int.ofNat)
  | '-' :: rest => (natOfDigits? rest).map (fun n => -(Int.ofNat n))
  | rest => (natOfDigits? rest).map (Int.ofNat)

/-! ## A small backtracking regex engine

Embeds the subset of Python `re` used by the MPESA patterns.  All
quantifiers in those patterns apply to single character classes, so `rep`
quantifies a character class; `opt`/`alt`/`seq`/`grp` cover the rest.
Matching is continuation-passing backtracking with Python `re` preference
order: ordered alternation, greedy (`lazy = false`) tries longer first,
lazy tries shorter first, and the search wrapper tries start positions
left to right (leftmost match wins, as in `re.search`). -/

inductive RE where
  | eps : RE
  | cls (p : Char → Bool) : RE
  | seq (a b : RE) : RE
  | alt (a b : RE) : RE
  | opt (a : RE) : RE
  | rep (p : Char → Bool) (lo : Nat) (hi : Option Nat) (lazy : Bool) : RE
  | grp (name : String) (a : RE) : RE

/-- Named-group captures of a match (`re.Match.groupdict`). -/
abbrev Caps := List (String × String)

/-- Length of the maximal run of characters satisfying `p`. -/
def runLen (p : Char → Bool) : List Char → Nat
  | [] => 0
  | x :: t => if p x then runLen p t + 1 else 0

/-- Try to continue the match after consuming `n` class characters, for each
`n` in the given candidate list, in order; first success wins. -/
def repTry (s : List Char) (c : Caps) (k : List Char → Caps → Option Caps) :
    List Nat → Option Caps
  | [] => none
  | n :: ns =>
    match k (s.drop n) c with
    | some r => some r
    | none => repTry s c k ns

/-- Backtracking matcher: match `r` against an initial segment of `s`,
calling continuation `k` with the remaining input and captures. -/
def reMatch : RE → List Char → Caps → (List Char → Caps → Option Caps) → Option Caps
  | .eps, s, c, k => k s c
  | .cls p, s, c, k =>
    match s with
    | [] => none
    | x :: t => if p x then k t c else none
  | .seq a b, s, c, k => reMatch a s c (fun s2 c2 => reMatch b s2 c2 k)
  | .alt a b, s, c, k =>
    match reMatch a s c k with
    | some r => some r
    | none => reMatch b s c k
  | .opt a, s, c, k =>
    match reMatch a s c k with
    | some r => some r
    | none => k s c
  | .rep p lo hi lz, s, c, k =>
    let maxN := match hi with
      | none => runLen p s
      | some h => min (runLen p s) h
    if lo > maxN then none
    else
      let cands := (List.range (maxN - lo + 1)).map (fun i => i + lo)
      repTry s c k (if lz then cands else cands.reverse)
  | .grp n a, s, c, k =>
    reMatch a s c (fun s2 c2 => k s2 ((n, String.mk (s.take (s.length - s2.length))) :: c2))

/-- `re.search`: try each start position left to right, return the captures
of the first successful match. -/
def reSearch (r : RE) : List Char → Option Caps
  | [] => reMatch r [] [] (fun _ c => some c)
  | x :: t =>
    match reMatch r (x :: t) [] (fun _ c => some c) with
    | some caps => some caps
    | none => reSearch r t

/-- `groupdict().get(name)`: captured text of a named group, if the group
participated in the match. -/
def capGet (c : Caps) (n : String) : Option String :=
  (c.find? (fun e => e.1 = n)).map (fun e => e.2)

/-- Sequence a list of regexes. -/
def rseq (l : List RE) : RE := l.foldr RE.seq RE.eps

/-- Case-insensitive single character (the patterns are compiled with
`re.IGNORECASE`). -/
def ichr (c : Char) : RE := RE.cls (fun x => x.toLower = c.toLower)

/-- Case-insensitive literal string. -/
def ilit (s : String) : RE := rseq (s.data.map ichr)

/-- `\s` (ASCII whitespace, sufficient for the gateway messages). -/
def wsCls : Char → Bool := pyWs

/-- `\d`. -/
def digCls : Char → Bool := asciiDigit

/-- `[\d,]`. -/
def digCommaCls : Char → Bool := fun c => asciiDigit c || c = ','

/-- `[A-Z0-9]` under `re.IGNORECASE` (so also `a-z`). -/
def alnumCls : Char → Bool := fun c =>
  ('A' ≤ c && c ≤ 'Z') || ('a' ≤ c && c ≤ 'z') || asciiDigit c

/-- `.` (any character except newline). -/
def dotCls : Char → Bool := fun c => c ≠ '\n'

/-- `\s*` -/
def ws0 : RE := RE.rep wsCls 0 none false

/-- `\s+` -/
def ws1 : RE := RE.rep wsCls 1 none false

/-- `\s?` -/
def wsOpt : RE := RE.rep wsCls 0 (some 1) false

/-! ## The MPESA message patterns

The four patterns below are character-for-character identical in
`mpesa_parser.py` (lines 20–44) and `sms_fetcher.py` (lines 33–57), so they
are embedded once and shared by both parser models. -/

/-- `(?P<amount>[\d,]+(?:\.\d{2})?)` -/
def amountRx : RE :=
  RE.grp "amount" (rseq
    [RE.rep digCommaCls 1 none false,
     RE.opt (rseq [ichr '.', RE.cls digCls, RE.cls digCls])])

/-- `(?P<phone>(?:\+?254|0)7\d{8})` -/
def phoneRx : RE :=
  RE.grp "phone" (rseq
    [RE.alt (rseq [RE.opt (ichr '+'), ichr '2', ichr '5', ichr '4']) (ichr '0'),
     ichr '7',
     RE.rep digCls 8 (some 8) false])

/-- `(?P<date>\d{1,2}/\d{1,2}/\d{2,4})` -/
def dateRx : RE :=
  RE.grp "date" (rseq
    [RE.rep digCls 1 (some 2) false, ichr '/',
     RE.rep digCls 1 (some 2) false, ichr '/',
     RE.rep digCls 2 (some 4) false])

/-- `(?P<time>\d{1,2}:\d{2}\s?(?:AM|PM))` -/
def timeRx : RE :=
  RE.grp "time" (rseq
    [RE.rep digCls 1 (some 2) false, ichr ':',
     RE.rep digCls 2 (some 2) false, wsOpt,
     RE.alt (ilit "AM") (ilit "PM")])

/-- `(?P<code>[A-Z0-9]{8,12})` -/
def codeRx : RE := RE.grp "code" (RE.rep alnumCls 8 (some 12) false)

/-- `(?P<name>.+?)` -/
def nameRx : RE := RE.grp "name" (RE.rep dotCls 1 none true)

/-- `received_person`:
`{code}\s*Confirmed\.?\s*You\s*have\s*received\s*Ksh\s*{amount}\s*from\s+{name}\s+{phone}\s*on\s*{date}\s*at\s*{time}` -/
def receivedPersonRx : RE :=
  rseq [codeRx, ws0, ilit "Confirmed", RE.opt (ichr '.'), ws0,
        ilit "You", ws0, ilit "have", ws0, ilit "received", ws0,
        ilit "Ksh", ws0, amountRx, ws0, ilit "from", ws1, nameRx, ws1,
        phoneRx, ws0, ilit "on", ws0, dateRx, ws0, ilit "at", ws0, timeRx]

/-- `sent_person`:
`{code}\s*Confirmed\.?\s*Ksh\s*{amount}\s*sent\s*to\s+{name}\s+{phone}\s*on\s*{date}\s*at\s*{time}` -/
def sentPersonRx : RE :=
  rseq [codeRx, ws0, ilit "Confirmed", RE.opt (ichr '.'), ws0,
        ilit "Ksh", ws0, amountRx, ws0, ilit "sent", ws0, ilit "to", ws1,
        nameRx, ws1, phoneRx, ws0, ilit "on", ws0, dateRx, ws0,
        ilit "at", ws0, timeRx]

/-- `paid_merchant`:
`{code}\s*Confirmed\.?\s*Ksh\s*{amount}\s*paid\s*to\s+{name}\s*on\s*{date}\s*at\s*{time}` -/
def paidMerchantRx : RE :=
  rseq [codeRx, ws0, ilit "Confirmed", RE.opt (ichr '.'), ws0,
        ilit "Ksh", ws0, amountRx, ws0, ilit "paid", ws0, ilit "to", ws1,
        nameRx, ws0, ilit "on", ws0, dateRx, ws0, ilit "at", ws0, timeRx]

/-- `received_business`:
`{code}\s*Confirmed\.?\s*You\s*have\s*received\s*Ksh\s*{amount}\s*from\s+{name}\s*on\s*{date}\s*at\s*{time}` -/
def receivedBusinessRx : RE :=
  rseq [codeRx, ws0, ilit "Confirmed", RE.opt (ichr '.'), ws0,
        ilit "You", ws0, ilit "have", ws0, ilit "received", ws0,
        ilit "Ksh", ws0, amountRx, ws0, ilit "from", ws1, nameRx, ws0,
        ilit "on", ws0, dateRx, ws0, ilit "at", ws0, timeRx]

/-- The ordered pattern list `self.patterns` / `self.mpesa_patterns`. -/
def mpesaPatterns : List (String × RE) :=
  [("received_person", receivedPersonRx),
   ("sent_person", sentPersonRx),
   ("paid_merchant", paidMerchantRx),
   ("received_business", receivedBusinessRx)]

/-- The `for pattern_name, pattern in self.patterns: re.search(...); break`
loop: first pattern (in list order) whose search succeeds. -/
def searchFirst : List (String × RE) → String → Option (String × Caps)
  | [], _ => none
  | (tag, r) :: rest, s =>
    match reSearch r s.data with
    | some caps => some (tag, caps)
    | none => searchFirst rest s

/-! ## Decimal and binary64 float models

`decimal.Decimal(str)` is exact; `float(str)` is the IEEE-754 binary64
value nearest the decimal literal (round to nearest, ties to even).
`toFloat64` computes that rounding on exact rationals; the gateway amounts
are far inside the normal binary64 range, so subnormals and overflow are
not modelled. -/

/-- Exact rational value of a plain decimal literal: `digits`,
`digits.digits`, `.digits` or `digits.` (the forms `Decimal`/`float` accept
among strings matchable by the amount pattern after comma removal);
anything else is an invalid literal (`none`, i.e. raises).  A literal with
integer part `n` and `k` fraction digits `f` denotes exactly
`(n·10^k + f) / 10^k`; the value is built with `mkRat` so that concrete
instances evaluate by kernel reduction. -/
def decimalValue? (s : String) : Option ℚ :=
  match splitOnChar '.' s.data with
  | [ip] =>
    if ip ≠ [] && ip.all asciiDigit then some (mkRat (digitsToNat ip) 1) else none
  | [ip, fp] =>
    if (ip ≠ [] || fp ≠ []) && ip.all asciiDigit && fp.all asciiDigit then
      some (mkRat (digitsToNat ip * 10 ^ fp.length + digitsToNat fp) (10 ^ fp.length))
    else none
  | _ => none

/-- For positive `a < d`, the least `k` with `a·2^k ≥ d` (fuel-bounded;
1200 exceeds the binary64 exponent range). -/
def invLog2 (fuel a d : Nat) : Nat :=
  match fuel with
  | 0 => 0
  | f + 1 => if d ≤ a * 2 then 1 else invLog2 f (a * 2) d + 1

/-- Base-2 logarithm by structural (fuel) recursion, so that it reduces
inside the kernel; agrees with `Nat.log2` for `n < 2^fuel`. -/
def natLog2 (fuel n : Nat) : Nat :=
  match fuel with
  | 0 => 0
  | f + 1 => if 2 ≤ n then natLog2 f (n / 2) + 1 else 0

/-- `⌊log₂ (a/d)⌋` for positive naturals `a`, `d`. -/
def fracLog2 (a d : Nat) : Int :=
  if d ≤ a then (natLog2 1200 (a / d) : Int) else -(invLog2 1200 a d : Int)

/-- Round the fraction `a/d` (`d > 0`) to the nearest natural, ties to
even. -/
def divRoundHalfEven (a d : Nat) : Nat :=
  let q := a / d
  let r := a % d
  if 2 * r < d then q
  else if d < 2 * r then q + 1
  else if q % 2 = 0 then q else q + 1

/-- Binary64 rounding of the positive fraction `a/d`: with
`e = ⌊log₂ (a/d)⌋`, the significand is `a/d` scaled by `2^(52-e)` rounded
to the nearest integer (ties to even), and the value is that significand
scaled back — a 53-bit significand as in IEEE-754 binary64. -/
def toFloat64Pos (a d : Nat) : ℚ :=
  let e := fracLog2 a d
  if 52 ≤ e then
    let s := (e - 52).toNat
    mkRat (divRoundHalfEven a (d * 2 ^ s) * 2 ^ s) 1
  else
    let s := (52 - e).toNat
    mkRat (divRoundHalfEven (a * 2 ^ s) d) (2 ^ s)

/-- Value of `float(...)` applied to the exact rational `q`: round to
nearest, ties to even, 53-bit significand.  The gateway amounts are far
inside the binary64 normal range, so subnormals and overflow are not
modelled. -/
def toFloat64 (q : ℚ) : ℚ :=
  if q.num = 0 then mkRat 0 1
  else if q.num < 0 then
    mkRat (-(toFloat64Pos q.num.natAbs q.den).num) (toFloat64Pos q.num.natAbs q.den).den
  else toFloat64Pos q.num.natAbs q.den

/-- The parser amount conversion, `mpesa_parser.py` line 134:
`Decimal(amount_str.replace(",", ""))` — exact decimal. -/
def parserAmountConv (s : String) : Option ℚ :=
  decimalValue? (pyRemoveChar ',' s)

/-- The fetcher amount conversion, `sms_fetcher.py` line 204:
`float(amt.replace(",", ""))` — binary64. -/
def fetcherAmountConv (s : String) : Option ℚ :=
  (decimalValue? (pyRemoveChar ',' s)).map toFloat64

/-! ## Phone normalization

`MPESAParser._normalize_phone` (`mpesa_parser.py` lines 46–63) and
`SMSFetcher._norm_phone` (`sms_fetcher.py` lines 160–170) are the same
algorithm statement for statement; both are embedded by this single
definition. -/

/-- Normalize a phone number to international format.  `none` models
Python `None`; `some ""` input is falsy in `if not phone` and maps to
`none` as well. -/
def normalizePhone (phone : Option String) : Option String :=
  match phone with
  | none => none
  | some p =>
    if p = "" then none
    else
      let digits := String.mk (p.data.filter asciiDigit)
      if pyStartsWith digits "0" then some ("+254" ++ pyDrop 1 digits)
      else if pyStartsWith digits "254" then some ("+254" ++ pyDrop 3 digits)
      else if digits.length = 9 && pyStartsWith digits "7" then some ("+254" ++ digits)
      else if !pyStartsWith p "+" then some ("+" ++ digits)
      else some p

/-! ## SMS date/time parsing (`strptime` with `%d/%m/%y` / `%d/%m/%Y`
and `%I:%M%p`)

`MPESAParser._parse_datetime` (`mpesa_parser.py` lines 65–80) and
`SMSFetcher._to_iso_local` (`sms_fetcher.py` lines 172–181) run the same
two-layout `strptime` loop; the fetcher then renders the result with
`isoformat()`, which is a presentation detail elided here — both are
embedded as a function to the parsed timezone-tagged datetime. -/

structure LocalDT where
  year : Nat
  month : Nat
  day : Nat
  hour : Nat
  minute : Nat
  second : Nat
  /-- fixed gateway-local offset in seconds (`KE_TZ`, +3:00 = 10800). -/
  tzOff : Int
deriving DecidableEq

def isLeapYear (y : Nat) : Bool := y % 4 = 0 && (y % 100 ≠ 0 || y % 400 = 0)

def daysInMonth (y m : Nat) : Nat :=
  if m = 2 then (if isLeapYear y then 29 else 28)
  else if m = 4 || m = 6 || m = 9 || m = 11 then 30
  else 31

/-- `strptime` numeric token of one or two digits in `[lo, hi]` (the
CPython `_strptime` patterns for `%d`, `%m`, `%I`, `%H`, `%M`). -/
def tok12 (lo hi : Nat) (l : List Char) : Option Nat :=
  if (l.length = 1 || l.length = 2) && l ≠ [] && l.all asciiDigit then
    let v := digitsToNat l
    if lo ≤ v && v ≤ hi then some v else none
  else none

/-- `%Y`: exactly four digits; `datetime` requires year ≥ 1. -/
def tokY4 (l : List Char) : Option Nat :=
  if l.length = 4 && l.all asciiDigit then
    let v := digitsToNat l
    if 1 ≤ v then some v else none
  else none

/-- `%y`: exactly two digits; 00–68 → 2000–2068, 69–99 → 1969–1999. -/
def tokY2 (l : List Char) : Option Nat :=
  if l.length = 2 && l.all asciiDigit then
    let v := digitsToNat l
    some (if v ≤ 68 then 2000 + v else 1900 + v)
  else none

/-- `strptime` with layout `%d/%m/%y` (or `%d/%m/%Y` when `fourDigitYear`),
including the calendar validation done by the `datetime` constructor. -/
def parseDateDmy (fourDigitYear : Bool) (s : String) : Option (Nat × Nat × Nat) :=
  match splitOnChar '/' s.data with
  | [dp, mp, yp] => do
    let d ← tok12 1 31 dp
    let m ← tok12 1 12 mp
    let y ← if fourDigitYear then tokY4 yp else tokY2 yp
    if d ≤ daysInMonth y m then some (y, m, d) else none
  | _ => none

/-- Convert a 12-hour value plus meridiem to a 24-hour value. -/
def hour24 (i : Nat) (pm : Bool) : Nat := if pm then i % 12 + 12 else i % 12

/-- `strptime` with layout `%I:%M%p` on an upper-cased, space-free time
token such as `10:15AM`: hour 1–12, minute (two-digit form preferred, as
in the `_strptime` regex), meridiem `AM`/`PM`.  Returns (hour24, minute). -/
def parseTimeIMp (s : String) : Option (Nat × Nat) :=
  match splitOnChar ':' s.data with
  | [ip, rest] => do
    let i ← tok12 1 12 ip
    match rest with
    | a :: b :: tail =>
      if asciiDigit a && asciiDigit b && digitsToNat [a, b] ≤ 59
          && (tail = ['A', 'M'] || tail = ['P', 'M']) then
        some (hour24 i (tail = ['P', 'M']), digitsToNat [a, b])
      else if asciiDigit a && (b :: tail = ['A', 'M'] || b :: tail = ['P', 'M']) then
        some (hour24 i (b :: tail = ['P', 'M']), digitsToNat [a])
      else none
    | _ => none
  | _ => none

/-- The two-layout datetime resolution loop shared by
`MPESAParser._parse_datetime` and `SMSFetcher._to_iso_local`: `none` on
missing/falsy input, first successful layout wins, result tagged with the
fixed +3:00 offset; all failures swallowed into `none`. -/
def parseDatetimeLocal (dateStr timeStr : Option String) : Option LocalDT :=
  match dateStr, timeStr with
  | some d, some t =>
    if d = "" || t = "" then none
    else
      let clean := pyRemoveChar ' ' (pyUpper t)
      match parseTimeIMp clean with
      | none => none
      | some (hh, mi) =>
        match parseDateDmy false d with
        | some (y, m, dd) => some ⟨y, m, dd, hh, mi, 0, 10800⟩
        | none =>
          match parseDateDmy true d with
          | some (y, m, dd) => some ⟨y, m, dd, hh, mi, 0, 10800⟩
          | none => none
  | _, _ => none

/-! ## The two extractors -/

/-- A Python value passed as the message body: a `str` or anything else
(`isinstance(message, str)` is all the code inspects). -/
inductive PyStrVal where
  | str (s : String)
  | nonStr
deriving DecidableEq

/-- Python exceptions that can escape the extractors. -/
inductive PyErr where
  /-- `decimal.InvalidOperation` (not a `ValueError`/`TypeError`). -/
  | invalidOperation
  /-- `ValueError`, e.g. from `float("")`. -/
  | valueError
  /-- `AttributeError`, e.g. `.lower()` on a non-string. -/
  | attributeError
deriving DecidableEq

/-- Python truthiness of an optional string (`None` and `""` falsy). -/
def truthyStr : Option String → Bool
  | none => false
  | some s => s ≠ ""

/-- Python truthiness of an optional number (`None` and `0` falsy;
`Decimal("0.00")` is falsy). -/
def truthyRat : Option ℚ → Bool
  | none => false
  | some q => q ≠ 0

/-- `(groups.get("name") or "").strip() or None`. -/
def stripOrNone (o : Option String) : Option String :=
  let s := pyStrip (o.getD "")
  if s = "" then none else some s

/-- The MPESA candidacy gate, the same boolean expression in
`MPESAParser.parse` (lines 112–116) and `SMSFetcher.parse_mpesa`
(line 186): `"mpesa" in provider_hint.lower() or "m-pesa" in
message.lower() or "mpesa" in message.lower()`. -/
def mpesaGate (message provider_hint : String) : Bool :=
  pyIn "mpesa" (pyLower provider_hint)
    || pyIn "m-pesa" (pyLower message)
    || pyIn "mpesa" (pyLower message)

/-- Direction from the name of the matched pattern
(`mpesa_parser.py` lines 149–154). -/
def directionOfTag (tag : String) : Option String :=
  if pyStartsWith tag "received" then some "received"
  else if pyStartsWith tag "paid" then some "paid"
  else if pyStartsWith tag "sent" then some "sent"
  else none

/-- Confidence scoring, `mpesa_parser.py` lines 156–167: base 0.5, +0.2 if
`result["amount"]` truthy, +0.2 if `result["tx_code"]` truthy, +0.1 if
`result["tx_datetime_local"]` truthy (a datetime is always truthy), +0.1
if `result["name"]` truthy, capped via `min(confidence, 1.0)`.  The float
additions are modelled in exact rational arithmetic. -/
def confidenceOf (amount : Option ℚ) (txCode : Option String)
    (dtl : Option LocalDT) (name : Option String) : ℚ :=
  mkRat (min (5 + (if truthyRat amount then 2 else 0)
        + (if truthyStr txCode then 2 else 0)
        + (if dtl.isSome then 1 else 0)
        + (if truthyStr name then 1 else 0)) 10 : Nat) 10

/-- `confidenceOf` computes exactly the source's
`min(0.5 + 0.2·amount + 0.2·code + 0.1·datetime + 0.1·name, 1.0)` (the
integer-tenths form above is used so that concrete instances evaluate by
kernel reduction). -/
theorem confidenceOf_eq (amount : Option ℚ) (txCode : Option String)
    (dtl : Option LocalDT) (name : Option String) :
    confidenceOf amount txCode dtl name =
      min ((1 : ℚ) / 2 + (if truthyRat amount then 1 / 5 else 0)
        + (if truthyStr txCode then 1 / 5 else 0)
        + (if dtl.isSome then 1 / 10 else 0)
        + (if truthyStr name then 1 / 10 else 0)) 1 := by
  unfold confidenceOf
  cases truthyRat amount <;> cases truthyStr txCode <;> cases dtl.isSome <;>
    cases truthyStr name <;>
    simp only [if_true, if_false, Bool.false_eq_true, ite_true, ite_false] <;>
    rw [Rat.mkRat_eq_div] <;> rw [min_def, min_def] <;> norm_num

/-- The amount-conversion step of `MPESAParser.parse` (lines 130–136):
`Decimal(amount_str.replace(",", ""))` when a non-empty amount was
captured.  `Decimal` raises `decimal.InvalidOperation` on an invalid
literal, and the surrounding `except (ValueError, TypeError)` clause does
not catch that class, so the exception escapes. -/
def amountStepM (g : Caps) : Except PyErr (Option ℚ) :=
  match capGet g "amount" with
  | some a =>
    if a ≠ "" then
      match decimalValue? (pyRemoveChar ',' a) with
      | some q => .ok (some q)
      | none => .error .invalidOperation
    else .ok none
  | none => .ok none

/-- The amount-conversion step of `SMSFetcher.parse_mpesa` (line 204):
`float(amt.replace(",", "")) if amt else None`, with no `try` at all, so
`float`'s `ValueError` on an invalid literal escapes. -/
def amountStepF (g : Caps) : Except PyErr (Option ℚ) :=
  match capGet g "amount" with
  | some a =>
    if a ≠ "" then
      match decimalValue? (pyRemoveChar ',' a) with
      | some q => .ok (some (toFloat64 q))
      | none => .error .valueError
    else .ok none
  | none => .ok none

/-- The draft produced by `MPESAParser.parse`. -/
structure MParseResult where
  provider : Option String
  direction : Option String
  amount : Option ℚ
  name : Option String
  phone : Option String
  date : Option String
  time : Option String
  tx_code : Option String
  tx_datetime_local : Option LocalDT
  parsing_confidence : ℚ
  parsing_errors : List String
deriving DecidableEq

/-- The all-defaults draft (`result` as initialized, lines 93–105). -/
def MParseResult.base : MParseResult :=
  ⟨none, none, none, none, none, none, none, none, none, 0, []⟩

/-- `MPESAParser.parse` (`mpesa_parser.py` lines 82–172).  Returns
`Except` because the `Decimal` conversion of a matched amount raises
`decimal.InvalidOperation` on an invalid literal such as `""`, and the
surrounding `except (ValueError, TypeError)` clause does not catch that
exception class, so it escapes the function. -/
def MPESAParser.parse (message : PyStrVal) (provider_hint : String) :
    Except PyErr MParseResult :=
  match message with
  | .nonStr => .ok { MParseResult.base with parsing_errors := ["Message is not a string"] }
  | .str msg =>
    if !mpesaGate msg provider_hint then
      .ok { MParseResult.base with
              parsing_errors := ["Message does not appear to be MPESA"] }
    else
      match searchFirst mpesaPatterns msg with
      | none =>
        .ok { MParseResult.base with
                provider := some "MPESA",
                parsing_errors := ["No matching pattern found"] }
      | some (tag, g) =>
        match amountStepM g with
        | .error e => .error e
        | .ok amt =>
          let nm := stripOrNone (capGet g "name")
          let dte := capGet g "date"
          let tme := capGet g "time"
          let cde := capGet g "code"
          let dtl := parseDatetimeLocal dte tme
          .ok { provider := some "MPESA",
                direction := directionOfTag tag,
                amount := amt,
                name := nm,
                phone := normalizePhone (capGet g "phone"),
                date := dte,
                time := tme,
                tx_code := cde,
                tx_datetime_local := dtl,
                parsing_confidence := confidenceOf amt cde dtl nm,
                parsing_errors := [] }

/-- The record produced by `SMSFetcher.parse_mpesa` (the fetcher renders
`tx_datetime_local` through `isoformat()`; the underlying datetime value
is kept here). -/
structure FParseResult where
  provider : Option String
  direction : Option String
  amount : Option ℚ
  name : Option String
  phone : Option String
  date : Option String
  time : Option String
  tx_code : Option String
  tx_datetime_local : Option LocalDT
deriving DecidableEq

/-- `SMSFetcher.parse_mpesa` (`sms_fetcher.py` lines 183–215).  The
`out` dict's provider entry evaluates `text.lower()` before the
`isinstance` guard, so a non-string body raises `AttributeError`; a
matched amount is converted with `float(...)`, whose `ValueError` on an
invalid literal is not caught.  Unlike `MPESAParser.parse`, there is no
MPESA candidacy gate in front of the pattern loop. -/
def SMSFetcher.parse_mpesa (text : PyStrVal) (provider_hint : String) :
    Except PyErr FParseResult :=
  match text with
  | .nonStr => .error .attributeError
  | .str txt =>
    let prov0 : Option String :=
      if mpesaGate txt provider_hint then some "MPESA" else none
    match searchFirst mpesaPatterns txt with
    | none => .ok ⟨prov0, none, none, none, none, none, none, none, none⟩
    | some (tag, g) =>
      match amountStepF g with
      | .error e => .error e
      | .ok amt =>
        .ok { provider := some "MPESA",
              direction := some (if pyStartsWith tag "received" then "received"
                                 else if pyStartsWith tag "paid" then "paid"
                                 else "sent"),
              amount := amt,
              name := stripOrNone (capGet g "name"),
              phone := normalizePhone (capGet g "phone"),
              date := capGet g "date",
              time := capGet g "time",
              tx_code := capGet g "code",
              tx_datetime_local := parseDatetimeLocal (capGet g "date") (capGet g "time") }

/-! ## Source-record timestamp resolution (`SMSFetcher._to_unix`)

A raw gateway record is modelled by the six dict entries `_to_unix` and
`normalize` inspect; a `none` field means the key is absent, and values
are carried as the strings `str(...)` would produce.  Naive
`datetime.timestamp()` converts through the system's local timezone; that
zone is modelled as the fixed offset parameter `localOff` (seconds east
of UTC), and the `time.time()` fallback as the parameter `nowTs`. -/

structure RawMsg where
  timestamp_unix : Option String
  time : Option String
  ts : Option String
  time_received : Option String
  date : Option String
  hour : Option String
deriving DecidableEq

/-- Days from the civil epoch 1970-01-01 (standard civil-calendar
conversion used to model `datetime` arithmetic; `Int` division truncates
toward zero exactly as in the reference algorithm). -/
def daysFromCivil (y : Int) (m d : Nat) : Int :=
  let y2 : Int := if m ≤ 2 then y - 1 else y
  let era : Int := (if 0 ≤ y2 then y2 else y2 - 399) / 400
  let yoe : Int := y2 - era * 400
  let mp : Int := (m : Int) + (if 2 < m then -3 else 9)
  let doy : Int := (153 * mp + 2) / 5 + (d : Int) - 1
  let doe : Int := yoe * 365 + yoe / 4 - yoe / 100 + doy
  era * 146097 + doe - 719468

/-- `int(naive_datetime.timestamp())` for a second-aligned datetime: epoch
seconds assuming the system-local offset `localOff`. -/
def epochOfNaive (y m d hh mi ss : Nat) (localOff : Int) : Int :=
  daysFromCivil (y : Int) m d * 86400 + (hh : Int) * 3600 + (mi : Int) * 60 + (ss : Int) - localOff

/-- `datetime.strptime(tr[:14], "%Y%m%d%H%M%S")` on a 14-character string:
succeeds exactly when the string is 14 digits splitting as a valid
`YYYY MM DD HH MM SS`.  (Consuming exactly 14 characters forces every
numeric field of the `_strptime` regex to its two-digit alternative, and
any leftover input raises, so the fixed-width split is faithful; the
regex-level allowance of seconds 60–61 is rejected by the `datetime`
constructor and therefore also a failure.) -/
def strptime14 (s : String) : Option (Nat × Nat × Nat × Nat × Nat × Nat) :=
  let l := s.data
  if l.length = 14 && l.all asciiDigit then
    let y := digitsToNat (l.take 4)
    let mo := digitsToNat ((l.drop 4).take 2)
    let d := digitsToNat ((l.drop 6).take 2)
    let hh := digitsToNat ((l.drop 8).take 2)
    let mi := digitsToNat ((l.drop 10).take 2)
    let ss := digitsToNat ((l.drop 12).take 2)
    if 1 ≤ y && 1 ≤ mo && mo ≤ 12 && 1 ≤ d && d ≤ daysInMonth y mo
        && hh ≤ 23 && mi ≤ 59 && ss ≤ 59 then
      some (y, mo, d, hh, mi, ss)
    else none
  else none

/-- ISO date component `YYYY-MM-DD` (exactly as `fromisoformat` requires
for the date part on the CPython versions this code targets). -/
def parseIsoDate (l : List Char) : Option (Nat × Nat × Nat) :=
  match splitOnChar '-' l with
  | [yp, mp, dp] =>
    if yp.length = 4 && mp.length = 2 && dp.length = 2
        && yp.all asciiDigit && mp.all asciiDigit && dp.all asciiDigit then
      let y := digitsToNat yp
      let mo := digitsToNat mp
      let d := digitsToNat dp
      if 1 ≤ y && 1 ≤ mo && mo ≤ 12 && 1 ≤ d && d ≤ daysInMonth y mo then
        some (y, mo, d)
      else none
    else none
  | _ => none

/-- ISO time component `HH`, `HH:MM` or `HH:MM:SS` with two-digit fields
(fractional seconds, which never occur in the gateway `hour` field, are
not modelled). -/
def parseIsoTime (l : List Char) : Option (Nat × Nat × Nat) :=
  let two (p : List Char) (hi : Nat) : Option Nat :=
    if p.length = 2 && p.all asciiDigit && digitsToNat p ≤ hi then some (digitsToNat p) else none
  match splitOnChar ':' l with
  | [hp] => (two hp 23).map (fun h => (h, 0, 0))
  | [hp, mp] => do
    let h ← two hp 23
    let mi ← two mp 59
    some (h, mi, 0)
  | [hp, mp, sp] => do
    let h ← two hp 23
    let mi ← two mp 59
    let ss ← two sp 59
    some (h, mi, ss)
  | _ => none

/-- `datetime.fromisoformat`: first ten characters are the date, character
ten (any separator) is skipped, the rest is the time; a bare date is also
accepted. -/
def fromIsoformat (s : String) : Option (Nat × Nat × Nat × Nat × Nat × Nat) :=
  let l := s.data
  if l.length = 10 then
    (parseIsoDate l).map (fun (y, mo, d) => (y, mo, d, 0, 0, 0))
  else if 12 ≤ l.length then do
    let (y, mo, d) ← parseIsoDate (l.take 10)
    let (hh, mi, ss) ← parseIsoTime (l.drop 11)
    some (y, mo, d, hh, mi, ss)
  else none

/-- `SMSFetcher._to_unix` (`sms_fetcher.py` lines 70–100), translated
branch for branch in source order: (1) the numeric candidate keys
`timestamp_unix`, `time`, `ts`, each attempted as `int(str(v)[:10])` with
failures passed over; then `tr = str(message.get("time_received", ""))`:
(2) 13 digits → milliseconds (`int(int(tr)/1000)`, exact integer division
for 13-digit values); (3) 10 digits → seconds; (4) length ≥ 14 with a
numeric prefix → `strptime("%Y%m%d%H%M%S")` of the first 14 characters;
(5) truthy `date` and `hour` fields → `fromisoformat(f"{date} {hour}")`;
(6) fallback `int(time.time())`. -/
def SMSFetcher.to_unix (m : RawMsg) (nowTs localOff : Int) : Int :=
  match m.timestamp_unix.bind (fun v => pyIntParse (pyTake 10 v)) with
  | some n => n
  | none =>
  match m.time.bind (fun v => pyIntParse (pyTake 10 v)) with
  | some n => n
  | none =>
  match m.ts.bind (fun v => pyIntParse (pyTake 10 v)) with
  | some n => n
  | none =>
  let tr := m.time_received.getD ""
  if pyIsDigit tr && tr.data.length = 13 then
    (digitsToNat tr.data : Int) / 1000
  else if pyIsDigit tr && tr.data.length = 10 then
    (digitsToNat tr.data : Int)
  else
  match (if 14 ≤ tr.data.length && pyIsDigit (pyTake 4 tr)
         then strptime14 (pyTake 14 tr) else none) with
  | some (y, mo, d, hh, mi, ss) => epochOfNaive y mo d hh mi ss localOff
  | none =>
  match (if truthyStr m.date && truthyStr m.hour
         then fromIsoformat (m.date.getD "" ++ " " ++ m.hour.getD "") else none) with
  | some (y, mo, d, hh, mi, ss) => epochOfNaive y mo d hh mi ss localOff
  | none => nowTs

/-! ### The individual resolution steps, and the order the spec claims

Each step below is the corresponding fallible piece of `_to_unix` as an
`Option`-valued function, so resolution orders can be compared. -/

/-- Step: the numeric candidate keys `timestamp_unix`, `time`, `ts`, each
as `int(str(v)[:10])`, first success. -/
def specStepNumeric (m : RawMsg) : Option Int :=
  m.timestamp_unix.bind (fun v => pyIntParse (pyTake 10 v))
    <|> m.time.bind (fun v => pyIntParse (pyTake 10 v))
    <|> m.ts.bind (fun v => pyIntParse (pyTake 10 v))

/-- Step: a 13-digit `time_received` as milliseconds since epoch. -/
def specStep13 (m : RawMsg) : Option Int :=
  let tr := m.time_received.getD ""
  if pyIsDigit tr && tr.data.length = 13 then some ((digitsToNat tr.data : Int) / 1000)
  else none

/-- Step: a 10-digit `time_received` as seconds since epoch. -/
def specStep10 (m : RawMsg) : Option Int :=
  let tr := m.time_received.getD ""
  if pyIsDigit tr && tr.data.length = 10 then some (digitsToNat tr.data : Int)
  else none

/-- Step: a ≥14-character numeric-prefixed `time_received` as
`YYYYMMDDHHMMSS`. -/
def specStep14 (m : RawMsg) (localOff : Int) : Option Int :=
  let tr := m.time_received.getD ""
  if (14 ≤ tr.data.length && pyIsDigit (pyTake 4 tr)) = true then
    (strptime14 (pyTake 14 tr)).map (fun (y, mo, d, hh, mi, ss) =>
      epochOfNaive y mo d hh mi ss localOff)
  else none

/-- Step: truthy `date` and `hour` fields combined and parsed as an
ISO-like local datetime. -/
def specStepDateHour (m : RawMsg) (localOff : Int) : Option Int :=
  if (truthyStr m.date && truthyStr m.hour) = true then
    (fromIsoformat (m.date.getD "" ++ " " ++ m.hour.getD "")).map
      (fun (y, mo, d, hh, mi, ss) => epochOfNaive y mo d hh mi ss localOff)
  else none

/-- Modelled from the claim's wording of the resolution order, which puts
the combined date+hour pair SECOND, before the `time_received` string
forms: (1) numeric candidates, (2) date+hour, (3) 13-digit milliseconds,
(4) 10-digit seconds, (5) `YYYYMMDDHHMMSS`, (6) current time. -/
def toUnixClaimedOrder (m : RawMsg) (nowTs localOff : Int) : Int :=
  (specStepNumeric m <|> specStepDateHour m localOff <|> specStep13 m
    <|> specStep10 m <|> specStep14 m localOff).getD nowTs

/-! ## The persistence store (models.py) and the two ingestion paths

The store is the collaborator surface the core writes: `SMSMessage` rows
(with the `guid` uniqueness constraint), `MPESATransaction` rows, and
`WebhookLog` rows.  Presentation-only columns (timestamps added by
`auto_now`, `processing_time`, response bodies, IP addresses) are elided;
the log entry created at the start of `WebhookView.post` and updated by
the later `save()` calls is modelled by its final field values. -/

structure PDate where
  y : Nat
  m : Nat
  d : Nat
deriving DecidableEq

structure PTime where
  hh : Nat
  mi : Nat
  ss : Nat
deriving DecidableEq

structure PDateTime where
  date : PDate
  time : PTime
deriving DecidableEq

structure StoredMsg where
  guid : String
  number : String
  message : String
  date : PDate
  hour : PTime
  time_received : PDateTime
  status : String
  processing_notes : String
deriving DecidableEq

/-- `parsing_errors` is a JSON field: the webhook stores the parser's
error list, the fetcher stores the empty string `""`. -/
inductive ErrJson where
  | lst (l : List String)
  | str (s : String)
deriving DecidableEq

structure StoredTx where
  sms_guid : String
  provider : Option String
  direction : Option String
  amount : Option ℚ
  name : Option String
  phone : Option String
  tx_code : Option String
  tx_date : Option String
  tx_time : Option String
  tx_datetime_local : Option LocalDT
  parsing_confidence : ℚ
  parsing_errors : ErrJson
deriving DecidableEq

structure WLog where
  endpoint : String
  method : String
  status : String
  status_code : Nat
  error_message : String
deriving DecidableEq

structure Store where
  messages : List StoredMsg
  transactions : List StoredTx
  logs : List WLog
deriving DecidableEq

/-- The empty store. -/
def Store.empty : Store := ⟨[], [], []⟩

/-- `MPESATransaction.is_valid` (`models.py` lines 122–125):
`bool(self.tx_code and self.amount and self.direction)` — a chain of
Python truthiness tests, so `""` and `Decimal(0)` both count as missing. -/
def MPESATransaction.is_valid (t : StoredTx) : Bool :=
  truthyStr t.tx_code && truthyRat t.amount && truthyStr t.direction

/-- `MPESAParser.is_mpesa_message` (`mpesa_parser.py` lines 174–189). -/
def MPESAParser.is_mpesa_message (message : PyStrVal) (sender_number : String) : Bool :=
  match message with
  | .nonStr => false
  | .str msg =>
    if pyIn "MPESA" (pyUpper sender_number) then true
    else
      let ml := pyLower msg
      ["mpesa", "m-pesa", "confirmed", "ksh", "sent", "received", "paid"].any
        (fun i => pyIn i ml)

/-! ### Webhook ingress (`WebhookView.post`, views.py lines 37–133) -/

/-- A decoded webhook JSON payload; `none` fields are keys absent from the
payload (field values are modelled as strings, which is what the gateway
sends). -/
structure Payload where
  date : Option String
  hour : Option String
  time_received : Option String
  message : Option String
  number : Option String
  guid : Option String
deriving DecidableEq

/-- The missing-fields check over
`required_fields = ['date', 'hour', 'time_received', 'message', 'number', 'guid']`. -/
def missingFields (p : Payload) : List String :=
  (if p.date.isSome then [] else ["date"])
    ++ (if p.hour.isSome then [] else ["hour"])
    ++ (if p.time_received.isSome then [] else ["time_received"])
    ++ (if p.message.isSome then [] else ["message"])
    ++ (if p.number.isSome then [] else ["number"])
    ++ (if p.guid.isSome then [] else ["guid"])

/-- `datetime.strptime(_, '%Y-%m-%d').date()`. -/
def parseFmtYmd (s : String) : Option PDate :=
  match splitOnChar '-' s.data with
  | [yp, mp, dp] => do
    let y ← tokY4 yp
    let mo ← tok12 1 12 mp
    let d ← tok12 1 31 dp
    if d ≤ daysInMonth y mo then some ⟨y, mo, d⟩ else none
  | _ => none

/-- `datetime.strptime(_, '%H:%M:%S').time()`. -/
def parseFmtHms (s : String) : Option PTime :=
  match splitOnChar ':' s.data with
  | [hp, mp, sp] => do
    let h ← tok12 0 23 hp
    let mi ← tok12 0 59 mp
    let ss ← tok12 0 59 sp
    some ⟨h, mi, ss⟩
  | _ => none

/-- `datetime.strptime(_, '%Y-%m-%d %H:%M:%S')`. -/
def parseFmtYmdHms (s : String) : Option PDateTime :=
  match splitOnChar ' ' s.data with
  | [dp, tp] => do
    let d ← parseFmtYmd (String.mk dp)
    let t ← parseFmtHms (String.mk tp)
    some ⟨d, t⟩
  | _ => none

/-- A webhook log entry with the given final status, code and error text. -/
def mkLog (status : String) (code : Nat) (emsg : String) : WLog :=
  ⟨"/webhook/sms/", "POST", status, code, emsg⟩

/-- A stored message with updated status and notes (`mark_as_processed` /
`mark_as_failed`). -/
def withStatus (m : StoredMsg) (status notes : String) : StoredMsg :=
  { m with status := status, processing_notes := notes }

/-- Append messages, transactions and log entries to the store. -/
def Store.addAll (st : Store) (ms : List StoredMsg) (txs : List StoredTx) (ls : List WLog) : Store :=
  ⟨st.messages ++ ms, st.transactions ++ txs, st.logs ++ ls⟩

/-- `WebhookView.post`.  Input `none` models a body `json.loads` rejects.
The webhook log row is created before anything else and updated by the
later `save()` calls (its final field values are what the model appends);
the SMS row insert enforces the `guid` uniqueness constraint
(`IntegrityError` on a duplicate, handled by the generic `except` as a
500); an exception raised by `MPESAParser.parse` after the SMS insert
leaves the inserted row in place (no transaction rollback) and is also
answered with 500.  Returns the updated store and the HTTP status code. -/
def WebhookView.post (st : Store) (req : Option Payload) : Store × Nat :=
  match req with
  | none =>
    (st.addAll [] [] [mkLog "error" 400 "Invalid JSON payload"], 400)
  | some p =>
    if missingFields p ≠ [] then
      (st.addAll [] [] [mkLog "invalid" 400 "Missing required fields"], 400)
    else
      match parseFmtYmd (p.date.getD ""), parseFmtHms (p.hour.getD ""),
            parseFmtYmdHms (p.time_received.getD "") with
      | some d, some h, some trv =>
        let gid := p.guid.getD ""
        if st.messages.any (fun m2 => m2.guid = gid) then
          (st.addAll [] [] [mkLog "error" 500 "Error processing webhook"], 500)
        else
          let msgBody := p.message.getD ""
          let sender := p.number.getD ""
          let msg0 : StoredMsg := ⟨gid, sender, msgBody, d, h, trv, "received", ""⟩
          if MPESAParser.is_mpesa_message (.str msgBody) sender then
            match MPESAParser.parse (.str msgBody) sender with
            | .error _ =>
              (st.addAll [msg0] [] [mkLog "error" 500 "Error processing webhook"], 500)
            | .ok pr =>
              if truthyStr pr.direction then
                let tx : StoredTx := ⟨gid, pr.provider, pr.direction, pr.amount, pr.name,
                  pr.phone, pr.tx_code, pr.date, pr.time, pr.tx_datetime_local,
                  pr.parsing_confidence, .lst pr.parsing_errors⟩
                (st.addAll
                  [withStatus msg0 "processed" "Successfully parsed as MPESA transaction"]
                  [tx] [mkLog "success" 200 ""], 200)
              else
                (st.addAll [withStatus msg0 "failed" "Failed to parse MPESA transaction"]
                  [] [mkLog "success" 200 ""], 200)
          else
            (st.addAll [withStatus msg0 "processed" "SMS received (not MPESA)"]
              [] [mkLog "success" 200 ""], 200)
      | _, _, _ =>
        (st.addAll [] [] [mkLog "error" 500 "Error processing webhook"], 500)

/-! ### Poll ingestion (`SMSFetcher.fetch_and_store_sms` storage loop,
sms_fetcher.py lines 265–325) -/

/-- A canonical record as produced by `normalize`: external id, address,
body and resolved receive time. -/
structure CanonRow where
  guid : String
  number : String
  message : String
  received_at : PDateTime
deriving DecidableEq

/-- Word character for the `\b` boundaries of the pandas mask regex. -/
def isWordChar (c : Char) : Bool := alnumCls c || c = '_'

/-- Case-insensitive prefix match returning the remaining characters. -/
def ciLeadsRem : List Char → List Char → Option (List Char)
  | [], h => some h
  | _ :: _, [] => none
  | a :: n, b :: h => if a.toLower = b.toLower then ciLeadsRem n h else none

/-- Is there a case-insensitive, word-bounded occurrence of `n` in the
remaining input, given whether the previous character was a word
character? -/
def wordScan (n : List Char) (prevWord : Bool) : List Char → Bool
  | [] => false
  | c :: t =>
    (if prevWord then false
     else match ciLeadsRem n (c :: t) with
       | some [] => true
       | some (r :: _) => !isWordChar r
       | none => false)
    || wordScan n (isWordChar c) t

/-- `str.contains(r"\bM-?PESA\b", case=False)` on a message body. -/
def containsWordMpesa (s : String) : Bool :=
  wordScan "mpesa".data false s.data || wordScan "m-pesa".data false s.data

/-- The MPESA row mask of the fetch loop (lines 246–249):
`number` contains `MPESA` (plain substring, case-insensitive) or the body
matches `\bM-?PESA\b`. -/
def mpesaMask (number message : String) : Bool :=
  pyIn "mpesa" (pyLower number) || containsWordMpesa message

inductive PollOutcome where
  | skipped
  | stored
  | errored
deriving DecidableEq

/-- One iteration of the storage loop of `fetch_and_store_sms` for a
canonical record: skip when a message with the same `guid` already
exists; otherwise insert the SMS row, and for masked rows attach the
`parse_mpesa` result — a transaction row (with hard-coded
`parsing_confidence=1.0` and `parsing_errors=""`) when a direction was
extracted, a `failed` status otherwise.  In the source `parse_mpesa` runs
in a pre-loop pass over the masked rows; a parse exception there aborts
the whole batch before the loop, which the `errored` outcome stands in
for. -/
def SMSFetcher.store_record (st : Store) (row : CanonRow) : Store × PollOutcome :=
  if st.messages.any (fun m2 => m2.guid = row.guid) then (st, .skipped)
  else
    let msg0 : StoredMsg := ⟨row.guid, row.number, row.message, row.received_at.date,
      row.received_at.time, row.received_at, "received", ""⟩
    if mpesaMask row.number row.message then
      match SMSFetcher.parse_mpesa (.str row.message) row.number with
      | .error _ => (st, .errored)
      | .ok pr =>
        if truthyStr pr.direction then
          let tx : StoredTx := ⟨row.guid, pr.provider, pr.direction, pr.amount, pr.name,
            pr.phone, pr.tx_code, pr.date, pr.time, pr.tx_datetime_local, 1, .str ""⟩
          (st.addAll
            [withStatus msg0 "processed" "Successfully parsed as MPESA transaction"]
            [tx] [], .stored)
        else
          (st.addAll [withStatus msg0 "failed" "Failed to parse MPESA transaction"]
            [] [], .stored)
    else
      (st.addAll [withStatus msg0 "processed" "SMS received (not MPESA)"] [] [], .stored)

/-! ## Concrete inputs used by the verification -/

deriving instance DecidableEq for Except

/-- The spec's extraction-determinism message (also the first payload of
the repository's own `test_webhook.py`). -/
def c2body : String :=
  "ABC12345 Confirmed. You have received Ksh 5,000.00 from John Doe +254712345678 on 20/01/25 at 10:15 AM"

/-- The same message with amount `0.00`. -/
def zeroBody : String :=
  "ABC12345 Confirmed. You have received Ksh 0.00 from John Doe +254712345678 on 20/01/25 at 10:15 AM"

/-- A message whose amount group matches only a comma (`[\d,]+` accepts a
bare `,`), so the captured amount text carries no digits. -/
def commaBody : String :=
  "AAAAA111 Confirmed. You have received Ksh , from John Doe 0712345678 on 1/1/25 at 1:00 AM"

/-- The same message shape with amount `100.10`. -/
def centsBody : String :=
  "ABC12345 Confirmed. You have received Ksh 100.10 from John Doe +254712345678 on 20/01/25 at 10:15 AM"

/-- The draft `MPESAParser.parse` produces for `c2body` under an MPESA
sender hint. -/
def c2Result : MParseResult :=
  ⟨some "MPESA", some "received", some (mkRat 5000 1), some "John Doe",
   some "+254712345678", some "20/01/25", some "10:15 AM", some "ABC12345",
   some ⟨2025, 1, 20, 10, 15, 0, 10800⟩, mkRat 1 1, []⟩

/-- The record `SMSFetcher.parse_mpesa` produces for `c2body`. -/
def c2FResult : FParseResult :=
  ⟨some "MPESA", some "received", some (mkRat 5000 1), some "John Doe",
   some "+254712345678", some "20/01/25", some "10:15 AM", some "ABC12345",
   some ⟨2025, 1, 20, 10, 15, 0, 10800⟩⟩

/-- The draft `MPESAParser.parse` produces for `zeroBody`. -/
def zeroResult : MParseResult :=
  ⟨some "MPESA", some "received", some (mkRat 0 1), some "John Doe",
   some "+254712345678", some "20/01/25", some "10:15 AM", some "ABC12345",
   some ⟨2025, 1, 20, 10, 15, 0, 10800⟩, mkRat 9 10, []⟩

/-! ## C8 — phone normalization -/

/-- C8: the phone normalizer (the identical `MPESAParser._normalize_phone`
and `SMSFetcher._norm_phone` routines) maps `"0712345678"` to
`"+254712345678"`, maps `"254712345678"` to `"+254712345678"`, returns
`"+254712345678"` unchanged, and maps null and empty input to null. -/
theorem phone_normalization_examples :
    normalizePhone (some "0712345678") = some "+254712345678"
    ∧ normalizePhone (some "254712345678") = some "+254712345678"
    ∧ normalizePhone (some "+254712345678") = some "+254712345678"
    ∧ normalizePhone none = none
    ∧ normalizePhone (some "") = none := by
  decide

/-! ## C2 — extraction determinism on the canonical example -/

/-- C2 counterexample: with an EMPTY sender hint the claim fails — the
extractor's MPESA gate rejects `c2body` (neither the hint nor the body
contains an `mpesa`/`m-pesa` token), so the draft has direction null and
confidence 0 instead of the claimed extraction. -/
theorem extraction_determinism_cex :
    MPESAParser.parse (.str c2body) "" =
      .ok { MParseResult.base with parsing_errors := ["Message does not appear to be MPESA"] }
    ∧ (MPESAParser.parse (.str c2body) "").map (fun r => r.direction) = .ok none
    ∧ (MPESAParser.parse (.str c2body) "").map (fun r => r.parsing_confidence) = .ok 0 := by
  refine ⟨by decide, by decide, by decide⟩

/-- C2 (amended): with a sender hint containing the brand token (as the
webhook sends, e.g. `"MPESA"`), the extractor yields direction
`received`, amount exactly 5000.00, name `"John Doe"`, phone
`"+254712345678"`, transaction code `"ABC12345"`, and confidence
1.0 ≥ 0.9. -/
theorem extraction_determinism_amended :
    MPESAParser.parse (.str c2body) "MPESA" = .ok c2Result
    ∧ c2Result.direction = some "received"
    ∧ c2Result.amount = some 5000
    ∧ c2Result.name = some "John Doe"
    ∧ c2Result.phone = some "+254712345678"
    ∧ c2Result.tx_code = some "ABC12345"
    ∧ c2Result.parsing_confidence = 1
    ∧ mkRat 9 10 ≤ c2Result.parsing_confidence
    ∧ mkRat 9 10 = (9 : ℚ) / 10 := by
  refine ⟨by decide, by decide, by decide, by decide, by decide, by decide,
    by decide, by decide, ?_⟩
  rw [Rat.mkRat_eq_div]
  norm_num

/-! ## C7 — the extractor can raise -/

/-- C7: the extractor is NOT total on string bodies: on `commaBody` (an
MPESA-gated body whose matched amount text is just `","`),
`Decimal(",".replace(",", ""))` = `Decimal("")` raises
`decimal.InvalidOperation`, which `except (ValueError, TypeError)` does
not catch, so `MPESAParser.parse` raises instead of recording a parse
error. -/
theorem parse_uncaught_exception :
    MPESAParser.parse (.str commaBody) "mpesa" = .error .invalidOperation := by
  decide

/-! ## C3 — decimal-exact amounts -/

/-- C3 counterexample: `"100.10"` is a matched amount string (the amount
group of a matched body), the webhook path parses it exactly, but the
poll path stores the binary64 value `float("100.10")`, which differs from
the exact decimal 1001/10. -/
theorem amount_decimal_cex :
    (searchFirst mpesaPatterns centsBody).map (fun r => capGet r.2 "amount")
      = some (some "100.10")
    ∧ parserAmountConv "100.10" = some (mkRat 1001 10)
    ∧ fetcherAmountConv "100.10" = some (mkRat 7043911292184166 70368744177664)
    ∧ fetcherAmountConv "100.10" ≠ some (mkRat 1001 10)
    ∧ mkRat 1001 10 = (1001 : ℚ) / 10 := by
  refine ⟨by decide, by decide, by decide, by decide, ?_⟩
  rw [Rat.mkRat_eq_div]
  norm_num

/-- C3 (amended): the webhook extraction path parses every matched amount
string (comma-stripped) to its exact decimal value; the poll path applies
binary64 rounding to that exact value, which happens to be exact on
`"15,000.00"` (both paths yield exactly 15000) but is not exact for every
matched amount string. -/
theorem amount_decimal_amended :
    (∀ s q, decimalValue? (pyRemoveChar ',' s) = some q →
      parserAmountConv s = some q ∧ fetcherAmountConv s = some (toFloat64 q))
    ∧ parserAmountConv "15,000.00" = some 15000
    ∧ fetcherAmountConv "15,000.00" = some 15000 := by
  refine ⟨fun s q hq => ⟨hq, ?_⟩, by decide, by decide⟩
  unfold fetcherAmountConv
  rw [hq]
  rfl

/-- C3 witness: the amended theorem applied at `"15,000.00"`. -/
theorem amount_decimal_amended_witness :
    decimalValue? (pyRemoveChar ',' "15,000.00") = some 15000
    ∧ parserAmountConv "15,000.00" = some 15000
    ∧ fetcherAmountConv "15,000.00" = some (toFloat64 15000) :=
  ⟨by decide, (amount_decimal_amended.1 "15,000.00" 15000 (by decide)).1,
   (amount_decimal_amended.1 "15,000.00" 15000 (by decide)).2⟩

/-! ## C4 — the validity invariant -/

/-- C4 counterexample: a Transaction persisted by the webhook pipeline
from `zeroBody` has non-null `tx_code`, non-null `amount` (= 0) and
non-null `direction`, yet `is_valid` is false, because Python truthiness
makes `Decimal("0.00")` falsy. -/
theorem validity_invariant_cex :
    (Store.transactions (WebhookView.post Store.empty (some ⟨some "2025-01-20",
        some "10:15:00", some "2025-01-20 10:14:50", some zeroBody, some "MPESA",
        some "guid_zero"⟩)).1).map
      (fun t => (MPESATransaction.is_valid t, t.tx_code, t.amount, t.direction))
    = [(false, some "ABC12345", some 0, some "received")] := by
  decide

/-- C4 (amended): for every Transaction, `is_valid` is true iff
`tx_code` is non-null and non-empty AND `amount` is non-null and non-zero
AND `direction` is non-null and non-empty (Python truthiness, not mere
non-nullness). -/
theorem validity_invariant_amended :
    ∀ t : StoredTx,
      MPESATransaction.is_valid t = true ↔
        ((t.tx_code ≠ none ∧ t.tx_code ≠ some "")
         ∧ (t.amount ≠ none ∧ t.amount ≠ some 0)
         ∧ (t.direction ≠ none ∧ t.direction ≠ some "")) := by
  intro t
  unfold MPESATransaction.is_valid
  cases t.tx_code <;> cases t.amount <;> cases t.direction <;>
    simp [truthyStr, truthyRat, and_assoc]

/-- C4 witness: the amended invariant at a concrete transaction. -/
theorem validity_invariant_amended_witness :
    MPESATransaction.is_valid
        ⟨"g", some "MPESA", some "received", some (mkRat 5000 1), none, none,
         some "ABC12345", none, none, none, mkRat 1 1, .lst []⟩ = true ↔
      ((some "ABC12345" ≠ (none : Option String) ∧ some "ABC12345" ≠ some "")
       ∧ (some (mkRat 5000 1) ≠ (none : Option ℚ) ∧ some (mkRat 5000 1) ≠ some 0)
       ∧ (some "received" ≠ (none : Option String) ∧ some "received" ≠ some "")) :=
  validity_invariant_amended
    ⟨"g", some "MPESA", some "received", some (mkRat 5000 1), none, none,
     some "ABC12345", none, none, none, mkRat 1 1, .lst []⟩

/-! ## C6 — the confidence formula -/

/-- C6 counterexample: on `zeroBody` (amount `0.00`) with an MPESA hint,
the amount IS present (`some 0`), the code, timestamp and name are all
present, yet the computed confidence is 0.9, not
`min(1.0, 0.5 + 0.2 + 0.2 + 0.1 + 0.1) = 1.0`: the `+0.2` bonus tests
Python truthiness, and `Decimal("0.00")` is falsy. -/
theorem confidence_formula_cex :
    MPESAParser.parse (.str zeroBody) "MPESA" = .ok zeroResult
    ∧ zeroResult.amount = some 0
    ∧ zeroResult.tx_code.isSome = true
    ∧ zeroResult.tx_datetime_local.isSome = true
    ∧ zeroResult.name.isSome = true
    ∧ zeroResult.parsing_confidence = mkRat 9 10
    ∧ mkRat 9 10 ≠ min (1 : ℚ) ((1 : ℚ) / 2 + 1 / 5 + 1 / 5 + 1 / 10 + 1 / 10) := by
  refine ⟨by decide, by decide, by decide, by decide, by decide, by decide, ?_⟩
  rw [Rat.mkRat_eq_div, min_def]
  norm_num

/-- C6 (amended): whenever the candidacy gate passes and the extractor
returns normally, a matched template yields confidence
`confidenceOf amount tx_code tx_datetime_local name`, i.e.
`min(0.5 + 0.2·[amount truthy] + 0.2·[code truthy] +
0.1·[timestamp resolved] + 0.1·[name truthy], 1.0)` (see
`confidenceOf_eq`; `truthy` means present and non-zero / non-empty); and
when no template matches, the draft has direction null, confidence 0.0
and the no-matching-pattern parse error. -/
theorem confidence_formula_amended :
    ∀ msg hint r,
      mpesaGate msg hint = true →
      MPESAParser.parse (.str msg) hint = .ok r →
      ((searchFirst mpesaPatterns msg).isSome = true →
        r.parsing_confidence = confidenceOf r.amount r.tx_code r.tx_datetime_local r.name)
      ∧ (searchFirst mpesaPatterns msg = none →
        r.direction = none ∧ r.parsing_confidence = 0
          ∧ "No matching pattern found" ∈ r.parsing_errors) := by
  intro msg hint r hg hok
  unfold MPESAParser.parse at hok
  dsimp only at hok
  rw [hg] at hok
  simp only [Bool.not_true, Bool.false_eq_true, if_false] at hok
  cases hs : searchFirst mpesaPatterns msg with
  | none =>
    rw [hs] at hok
    cases hok
    constructor
    · intro habs
      simp [hs] at habs
    · intro _
      refine ⟨rfl, rfl, ?_⟩
      simp [MParseResult.base]
  | some tg =>
    obtain ⟨tag, g⟩ := tg
    rw [hs] at hok
    dsimp only at hok
    cases hA : amountStepM g with
    | error e => rw [hA] at hok; cases hok
    | ok amt =>
      rw [hA] at hok
      cases hok
      constructor
      · intro _
        rfl
      · intro habs
        exact Option.noConfusion habs

/-- C6 witness: the amended confidence law applied at `zeroBody` with an
MPESA hint. -/
theorem confidence_formula_amended_witness :
    zeroResult.parsing_confidence =
      confidenceOf zeroResult.amount zeroResult.tx_code
        zeroResult.tx_datetime_local zeroResult.name :=
  (confidence_formula_amended zeroBody "MPESA" zeroResult (by decide) (by decide)).1
    (by decide)

/-! ## C5 — timestamp resolution order -/

/-- A raw record carrying both a 13-digit `time_received` and a parseable
`date`+`hour` pair that denote different instants. -/
def rawBoth : RawMsg :=
  ⟨none, none, none, some "1700000000000", some "2000-01-01", some "00:00:00"⟩

/-- C5 counterexample: on `rawBoth` (with `now = 0` and local offset
+3:00) the code resolves step (2of the claim)'s date+hour LAST among the
parseable steps: `_to_unix` returns the milliseconds value 1700000000,
while the claimed order (date+hour second) would return 946674000. -/
theorem timestamp_resolution_cex :
    SMSFetcher.to_unix rawBoth 0 10800 = 1700000000
    ∧ toUnixClaimedOrder rawBoth 0 10800 = 946674000
    ∧ (1700000000 : Int) ≠ 946674000 := by
  refine ⟨by decide, by decide, by decide⟩

/-- C5 (amended): for every raw record the resolved timestamp is the
first success of: (1) a numeric field from {timestamp_unix, time, ts}
truncated to 10 characters; (2) a 13-digit all-numeric `time_received` as
milliseconds; (3) a 10-digit one as seconds; (4) a ≥14-character
numeric-prefixed one as YYYYMMDDHHMMSS; (5) the combined date+hour pair
as an ISO-like local datetime; (6) otherwise the current wall-clock time,
so resolution never fails.  (The claim placed the date+hour pair second;
the code tries it fifth.) -/
theorem timestamp_resolution_amended :
    ∀ m nowTs localOff,
      SMSFetcher.to_unix m nowTs localOff =
        (specStepNumeric m <|> specStep13 m <|> specStep10 m
          <|> specStep14 m localOff <|> specStepDateHour m localOff).getD nowTs := by
  intro m nowTs localOff
  unfold SMSFetcher.to_unix specStepNumeric specStep13 specStep10 specStep14 specStepDateHour
  cases h1 : m.timestamp_unix.bind (fun v => pyIntParse (pyTake 10 v)) with
  | some n => simp
  | none =>
  simp only [Option.none_orElse]
  cases h2 : m.time.bind (fun v => pyIntParse (pyTake 10 v)) with
  | some n => simp
  | none =>
  simp only [Option.none_orElse]
  cases h3 : m.ts.bind (fun v => pyIntParse (pyTake 10 v)) with
  | some n => simp
  | none =>
  simp only [Option.none_orElse]
  cases h13 : pyIsDigit (m.time_received.getD "") && (m.time_received.getD "").data.length = 13 with
  | true => simp [h13]
  | false =>
  simp only [h13, if_false, Bool.false_eq_true]
  cases h10 : pyIsDigit (m.time_received.getD "") && (m.time_received.getD "").data.length = 10 with
  | true => simp [h10]
  | false =>
  simp only [h10, if_false, Bool.false_eq_true]
  by_cases c14 : (14 ≤ (m.time_received.getD "").data.length
      && pyIsDigit (pyTake 4 (m.time_received.getD ""))) = true
  · rw [if_pos c14, if_pos c14]
    cases hs14 : strptime14 (pyTake 14 (m.time_received.getD "")) with
    | some v =>
      obtain ⟨y, mo, d, hh, mi, ss⟩ := v
      simp [hs14]
    | none =>
      simp only [hs14, Option.map_none', Option.none_orElse]
      by_cases cdh : (truthyStr m.date && truthyStr m.hour) = true
      · rw [if_pos cdh, if_pos cdh]
        cases hdh : fromIsoformat (m.date.getD "" ++ " " ++ m.hour.getD "") with
        | some v => obtain ⟨y, mo, d, hh, mi, ss⟩ := v; simp [hdh]
        | none => simp [hdh]
      · rw [if_neg cdh, if_neg cdh]
        simp
  · rw [if_neg c14, if_neg c14]
    simp only [Option.none_orElse]
    by_cases cdh : (truthyStr m.date && truthyStr m.hour) = true
    · rw [if_pos cdh, if_pos cdh]
      cases hdh : fromIsoformat (m.date.getD "" ++ " " ++ m.hour.getD "") with
      | some v => obtain ⟨y, mo, d, hh, mi, ss⟩ := v; simp [hdh]
      | none => simp [hdh]
    · rw [if_neg cdh, if_neg cdh]
      simp

/-- C5 witness: the amended resolver equation at `rawBoth`. -/
theorem timestamp_resolution_amended_witness :
    SMSFetcher.to_unix rawBoth 0 10800 =
      (specStepNumeric rawBoth <|> specStep13 rawBoth <|> specStep10 rawBoth
        <|> specStep14 rawBoth 10800 <|> specStepDateHour rawBoth 10800).getD 0 :=
  timestamp_resolution_amended rawBoth 0 10800

/-! ## C9 — missing-field validation and persistence -/

/-- A payload missing the required `guid` field. -/
def noGuidPayload : Payload :=
  ⟨some "2025-01-20", some "10:15:00", some "2025-01-20 10:14:50",
   some c2body, some "MPESA", none⟩

/-- C9 counterexample: a payload with a missing required field is
rejected with 400 and creates no Message and no Transaction, but it is
NOT true that no write to any store happens before the rejection: the
webhook log row (`WebhookLog.objects.create`, views.py line 42) is
written first, so the store changes. -/
theorem validation_before_persistence_cex :
    (WebhookView.post Store.empty (some noGuidPayload)).2 = 400
    ∧ (WebhookView.post Store.empty (some noGuidPayload)).1.messages = []
    ∧ (WebhookView.post Store.empty (some noGuidPayload)).1.transactions = []
    ∧ (WebhookView.post Store.empty (some noGuidPayload)).1 ≠ Store.empty
    ∧ ((WebhookView.post Store.empty (some noGuidPayload)).1.logs).length = 1 := by
  refine ⟨by decide, by decide, by decide, by decide, by decide⟩

/-- C9 (amended): for every store and every payload missing one of the
required fields, the call is rejected as a 400 client error before any
Message or Transaction persistence — the Message and Transaction stores
are unchanged — but a WebhookLog audit entry is appended. -/
theorem validation_before_persistence_amended :
    ∀ st p, missingFields p ≠ [] →
      (WebhookView.post st (some p)).2 = 400
      ∧ (WebhookView.post st (some p)).1.messages = st.messages
      ∧ (WebhookView.post st (some p)).1.transactions = st.transactions
      ∧ (WebhookView.post st (some p)).1.logs
          = st.logs ++ [mkLog "invalid" 400 "Missing required fields"] := by
  intro st p h
  unfold WebhookView.post
  dsimp only
  rw [if_pos h]
  refine ⟨rfl, ?_, ?_, rfl⟩ <;> simp [Store.addAll]

/-- C9 witness: the amended statement at `noGuidPayload` over the empty
store. -/
theorem validation_before_persistence_amended_witness :
    (WebhookView.post Store.empty (some noGuidPayload)).2 = 400
    ∧ (WebhookView.post Store.empty (some noGuidPayload)).1.messages = Store.empty.messages
    ∧ (WebhookView.post Store.empty (some noGuidPayload)).1.transactions
        = Store.empty.transactions
    ∧ (WebhookView.post Store.empty (some noGuidPayload)).1.logs
        = Store.empty.logs ++ [mkLog "invalid" 400 "Missing required fields"] :=
  validation_before_persistence_amended Store.empty noGuidPayload (by decide)

/-! ## C1 — idempotent ingestion -/

/-- The repository's own first webhook test payload. -/
def ingestPayload : Payload :=
  ⟨some "2025-01-20", some "10:15:00", some "2025-01-20 10:14:50",
   some c2body, some "MPESA", some "test_guid_001"⟩

/-- The store after one webhook ingestion of `ingestPayload`. -/
def webhookOnce : Store := (WebhookView.post Store.empty (some ingestPayload)).1

/-- The canonical record with the same identifier on the poll path. -/
def dupRow : CanonRow :=
  ⟨"test_guid_001", "MPESA", c2body, ⟨⟨2025, 1, 20⟩, ⟨10, 15, 0⟩⟩⟩

/-- C1 counterexample: re-delivering an already-ingested identifier
through the webhook is NOT a no-op: the duplicate insert trips the guid
uniqueness constraint, the call is answered 500 (not a silent skip), and
the stored state changes — a webhook log entry is appended (messages and
transactions are indeed unchanged). -/
theorem idempotent_ingestion_cex :
    (WebhookView.post webhookOnce (some ingestPayload)).2 = 500
    ∧ (WebhookView.post webhookOnce (some ingestPayload)).1 ≠ webhookOnce
    ∧ (WebhookView.post webhookOnce (some ingestPayload)).1.logs.length
        = webhookOnce.logs.length + 1
    ∧ (WebhookView.post webhookOnce (some ingestPayload)).1.messages = webhookOnce.messages
    ∧ (WebhookView.post webhookOnce (some ingestPayload)).1.transactions
        = webhookOnce.transactions := by
  refine ⟨by decide, by decide, by decide, by decide, by decide⟩

/-- C1 (amended): for any store with no message under identifier `g` and
any well-formed payload with that identifier, the first webhook ingestion
stores exactly one Message with identifier `g`; a second delivery of the
same payload creates no Message and no Transaction (it is rejected by the
uniqueness constraint with a 500 and only appends a webhook log entry),
and re-offering the identifier to the poll store loop is a pure skip
leaving the store untouched. -/
theorem idempotent_ingestion_amended :
    ∀ (st : Store) (p : Payload) (g : String) (row : CanonRow),
      p.guid = some g → row.guid = g →
      missingFields p = [] →
      (parseFmtYmd (p.date.getD "")).isSome = true →
      (parseFmtHms (p.hour.getD "")).isSome = true →
      (parseFmtYmdHms (p.time_received.getD "")).isSome = true →
      st.messages.any (fun m2 => m2.guid = g) = false →
      (((WebhookView.post st (some p)).1.messages.filter
          (fun m2 => m2.guid = g)).length = 1
       ∧ (WebhookView.post (WebhookView.post st (some p)).1 (some p)).2 = 500
       ∧ (WebhookView.post (WebhookView.post st (some p)).1 (some p)).1.messages
           = (WebhookView.post st (some p)).1.messages
       ∧ (WebhookView.post (WebhookView.post st (some p)).1 (some p)).1.transactions
           = (WebhookView.post st (some p)).1.transactions
       ∧ SMSFetcher.store_record (WebhookView.post st (some p)).1 row
           = ((WebhookView.post st (some p)).1, .skipped)) := by
  intro st p g row hpg hrg hmiss hdate hhour htrv hfresh
  obtain ⟨d0, hd0⟩ := Option.isSome_iff_exists.mp hdate
  obtain ⟨h0, hh0⟩ := Option.isSome_iff_exists.mp hhour
  obtain ⟨t0, ht0⟩ := Option.isSome_iff_exists.mp htrv
  have hmiss2 : ¬missingFields p ≠ [] := by simp [hmiss]
  have hgid : p.guid.getD "" = g := by rw [hpg]; rfl
  have key : ∃ mNew : StoredMsg, mNew.guid = g ∧
      ∃ txs logs2, (WebhookView.post st (some p)).1 = Store.addAll st [mNew] txs logs2 := by
    unfold WebhookView.post
    dsimp only
    rw [if_neg hmiss2, hd0, hh0, ht0]
    dsimp only
    rw [hgid]
    simp only [hfresh, Bool.false_eq_true, if_false]
    by_cases hmp : MPESAParser.is_mpesa_message (.str (p.message.getD ""))
        (p.number.getD "") = true
    · rw [if_pos hmp]
      cases hpr : MPESAParser.parse (.str (p.message.getD "")) (p.number.getD "") with
      | error e => exact ⟨_, rfl, _, _, rfl⟩
      | ok pr =>
        dsimp only
        by_cases hdir : truthyStr pr.direction = true
        · rw [if_pos hdir]
          exact ⟨_, rfl, _, _, rfl⟩
        · rw [if_neg hdir]
          exact ⟨_, rfl, _, _, rfl⟩
    · rw [if_neg hmp]
      exact ⟨_, rfl, _, _, rfl⟩
  obtain ⟨mNew, hmg, txs, logs2, hpost⟩ := key
  have hfilter : ((WebhookView.post st (some p)).1.messages.filter
      (fun m2 => m2.guid = g)).length = 1 := by
    rw [hpost]
    dsimp [Store.addAll]
    rw [List.filter_append]
    have hnil : st.messages.filter (fun m2 => decide (m2.guid = g)) = [] := by
      rw [List.filter_eq_nil_iff]
      intro a ha
      have hall := List.any_eq_false.mp hfresh a ha
      simpa using hall
    rw [hnil]
    simp [hmg]
  have hany : (WebhookView.post st (some p)).1.messages.any
      (fun m2 => m2.guid = g) = true := by
    rw [hpost]
    dsimp [Store.addAll]
    rw [List.any_append]
    simp [hmg]
  have hsecond : WebhookView.post (WebhookView.post st (some p)).1 (some p)
      = (Store.addAll (WebhookView.post st (some p)).1 [] []
          [mkLog "error" 500 "Error processing webhook"], 500) := by
    conv =>
      lhs
      rw [WebhookView.post]
    dsimp only
    rw [if_neg hmiss2, hd0, hh0, ht0]
    dsimp only
    rw [hgid]
    simp only [hany, if_true]
  have hskip : SMSFetcher.store_record (WebhookView.post st (some p)).1 row
      = ((WebhookView.post st (some p)).1, .skipped) := by
    unfold SMSFetcher.store_record
    rw [hrg]
    simp only [hany, if_true]
  refine ⟨hfilter, by rw [hsecond], ?_, ?_, hskip⟩
  · rw [hsecond]
    simp [Store.addAll]
  · rw [hsecond]
    simp [Store.addAll]

/-- C1 witness: the amended statement at the repository's own test
payload over the empty store. -/
theorem idempotent_ingestion_amended_witness :
    ((webhookOnce.messages.filter (fun m2 => m2.guid = "test_guid_001")).length = 1
     ∧ (WebhookView.post webhookOnce (some ingestPayload)).2 = 500
     ∧ (WebhookView.post webhookOnce (some ingestPayload)).1.messages = webhookOnce.messages
     ∧ (WebhookView.post webhookOnce (some ingestPayload)).1.transactions
         = webhookOnce.transactions
     ∧ SMSFetcher.store_record webhookOnce dupRow = (webhookOnce, .skipped)) :=
  idempotent_ingestion_amended Store.empty ingestPayload "test_guid_001" dupRow
    (by decide) (by decide) (by decide) (by decide) (by decide) (by decide) (by decide)

/-! ## C10 — equivalence of the two extractors -/

/-- The tag returned by the pattern loop is the name of one of the listed
patterns. -/
theorem searchFirst_tag (l : List (String × RE)) (s : String) (tag : String) (g : Caps) :
    searchFirst l s = some (tag, g) → ∃ r, (tag, r) ∈ l := by
  induction l with
  | nil => intro h; simp [searchFirst] at h
  | cons hd tl ih =>
    intro h
    obtain ⟨t0, r0⟩ := hd
    unfold searchFirst at h
    cases hr : reSearch r0 s.data with
    | some caps =>
      rw [hr] at h
      cases h
      exact ⟨r0, by simp⟩
    | none =>
      rw [hr] at h
      obtain ⟨r, hr2⟩ := ih h
      exact ⟨r, by simp [hr2]⟩

/-- On each of the four pattern names, the parser's
`startswith`-cascade direction (which can fall through to `None`) agrees
with the fetcher's conditional-expression direction (which defaults to
`"sent"`). -/
theorem direction_tag_agree (tag : String) (r : RE)
    (hmem : (tag, r) ∈ mpesaPatterns) :
    directionOfTag tag = some (if pyStartsWith tag "received" then "received"
      else if pyStartsWith tag "paid" then "paid" else "sent") := by
  simp only [mpesaPatterns, List.mem_cons, List.not_mem_nil, or_false, Prod.mk.injEq] at hmem
  rcases hmem with ⟨h1, _⟩ | ⟨h1, _⟩ | ⟨h1, _⟩ | ⟨h1, _⟩ <;> subst h1 <;> decide

/-- C10 counterexample: the two extractors are not equivalent.  On the
spec's own example body with an empty sender hint, `MPESAParser.parse`
is stopped by its MPESA gate (direction null), while
`SMSFetcher.parse_mpesa` has no such gate and extracts
direction=received. -/
theorem extractor_equivalence_cex :
    (MPESAParser.parse (.str c2body) "").map (fun r => r.direction) = .ok none
    ∧ (SMSFetcher.parse_mpesa (.str c2body) "").map (fun r => r.direction)
        = .ok (some "received")
    ∧ (none : Option String) ≠ some "received" := by
  refine ⟨by decide, by decide, by decide⟩

/-- C10 (amended): whenever the parser's MPESA gate passes (which the
webhook guarantees by passing the sender as hint), the two extractors
agree: they raise together (though with different exception classes), and
on normal returns they produce the same direction, transaction code,
name, and normalized phone, with the poll amount equal to the binary64
rounding of the webhook's decimal-exact amount. -/
theorem extractor_equivalence_amended :
    ∀ body hint, mpesaGate body hint = true →
      ((∃ e, MPESAParser.parse (.str body) hint = .error e)
        ↔ (∃ e, SMSFetcher.parse_mpesa (.str body) hint = .error e))
      ∧ (∀ r1 r2, MPESAParser.parse (.str body) hint = .ok r1 →
          SMSFetcher.parse_mpesa (.str body) hint = .ok r2 →
          r1.direction = r2.direction ∧ r1.tx_code = r2.tx_code
          ∧ r1.name = r2.name ∧ r1.phone = r2.phone
          ∧ r2.amount = r1.amount.map toFloat64) := by
  intro body hint hg
  unfold MPESAParser.parse SMSFetcher.parse_mpesa
  dsimp only
  rw [hg]
  simp only [Bool.not_true, Bool.false_eq_true, if_false]
  cases hs : searchFirst mpesaPatterns body with
  | none =>
    constructor
    · constructor <;> rintro ⟨e, he⟩ <;> exact Except.noConfusion he
    · rintro r1 r2 h1 h2
      cases h1
      cases h2
      exact ⟨rfl, rfl, rfl, rfl, rfl⟩
  | some tg =>
    obtain ⟨tag, g⟩ := tg
    dsimp only
    obtain ⟨r, hmem⟩ := searchFirst_tag mpesaPatterns body tag g hs
    have hdir := direction_tag_agree tag r hmem
    cases hA : capGet g "amount" with
    | none =>
      have hM : amountStepM g = .ok none := by unfold amountStepM; rw [hA]
      have hF : amountStepF g = .ok none := by unfold amountStepF; rw [hA]
      rw [hM, hF]
      dsimp only
      constructor
      · constructor <;> rintro ⟨e, he⟩ <;> exact Except.noConfusion he
      · rintro r1 r2 h1 h2
        cases h1
        cases h2
        exact ⟨hdir, rfl, rfl, rfl, rfl⟩
    | some a =>
      by_cases ha : a = ""
      · have hM : amountStepM g = .ok none := by
          unfold amountStepM; rw [hA]; simp [ha]
        have hF : amountStepF g = .ok none := by
          unfold amountStepF; rw [hA]; simp [ha]
        rw [hM, hF]
        dsimp only
        constructor
        · constructor <;> rintro ⟨e, he⟩ <;> exact Except.noConfusion he
        · rintro r1 r2 h1 h2
          cases h1
          cases h2
          exact ⟨hdir, rfl, rfl, rfl, rfl⟩
      · cases hq : decimalValue? (pyRemoveChar ',' a) with
        | none =>
          have hM : amountStepM g = .error .invalidOperation := by
            unfold amountStepM; rw [hA]; dsimp only; rw [if_pos ha, hq]
          have hF : amountStepF g = .error .valueError := by
            unfold amountStepF; rw [hA]; dsimp only; rw [if_pos ha, hq]
          rw [hM, hF]
          dsimp only
          constructor
          · constructor <;> intro _
            · exact ⟨.valueError, rfl⟩
            · exact ⟨.invalidOperation, rfl⟩
          · rintro r1 r2 h1 h2
            exact Except.noConfusion h1
        | some q =>
          have hM : amountStepM g = .ok (some q) := by
            unfold amountStepM; rw [hA]; dsimp only; rw [if_pos ha, hq]
          have hF : amountStepF g = .ok (some (toFloat64 q)) := by
            unfold amountStepF; rw [hA]; dsimp only; rw [if_pos ha, hq]
          rw [hM, hF]
          dsimp only
          constructor
          · constructor <;> rintro ⟨e, he⟩ <;> exact Except.noConfusion he
          · rintro r1 r2 h1 h2
            cases h1
            cases h2
            exact ⟨hdir, rfl, rfl, rfl, rfl⟩

/-- C10 witness: the amended equivalence applied at the spec's example
body with hint `"MPESA"`; the concrete fields agree, with the amounts
linked by binary64 rounding. -/
theorem extractor_equivalence_amended_witness :
    c2Result.direction = c2FResult.direction
    ∧ c2Result.tx_code = c2FResult.tx_code
    ∧ c2Result.name = c2FResult.name
    ∧ c2Result.phone = c2FResult.phone
    ∧ c2FResult.amount = c2Result.amount.map toFloat64 :=
  (extractor_equivalence_amended c2body "MPESA" (by decide)).2 c2Result c2FResult
    (by decide) (by decide)
